import Mathlib

/-!
Shallow embedding of the aiosonos client (music-assistant/aiosonos):
state reconciliation (client.py, group.py, player.py), the subscription
registry (client.py), and the websocket command correlator
(api/websockets.py).  Python dicts keyed by strings are modelled as
insertion-ordered association lists; TypedDicts with a fixed schema are
modelled as structures, with `Option` for `NotRequired` keys (`none`
means the key is absent).  Python dict equality ignores insertion order
and these structures compare the same way, field by field.
-/

/-- Modelled from the spec: the event kinds of aiosonos.const.EventType
(const.py is not included in the sources; the spec names the four kinds
GROUP_ADDED, GROUP_UPDATED, GROUP_REMOVED, PLAYER_UPDATED). -/
inductive EventType where
  | groupAdded
  | groupUpdated
  | groupRemoved
  | playerUpdated
  deriving DecidableEq, Repr

/-- Modelled from the spec: a SonosEvent (GroupEvent/PlayerEvent of
aiosonos.const) as consumed by the subscription registry: an event kind
plus the subject object id. -/
structure SonosEvent where
  event : EventType
  object_id : String
  deriving DecidableEq, Repr

/-- The Group TypedDict of api/models.py: required keys id, name,
coordinatorId, playerIds; NotRequired keys playbackState and areaIds
(`none` models key absence). -/
structure GroupData where
  id : String
  name : String
  coordinatorId : String
  playerIds : List String
  playbackState : Option String := none
  areaIds : Option (List String) := none
  deriving DecidableEq, Repr

/-- The Player TypedDict of api/models.py, restricted to the fields the
reconciler touches (all required keys, so an update overwrites every
field). -/
structure PlayerData where
  id : String
  name : String
  websocketUrl : String
  deriving DecidableEq, Repr

/-- Python dict key lookup `d.get(k)` / `k in d`: the value stored
under the first (unique) entry with key `k`, `none` when absent. -/
def dictLookup {α : Type} (k : String) : List (String × α) → Option α
  | [] => none
  | e :: es => if e.1 = k then some e.2 else dictLookup k es

/-- Python dict value update in place: rewrite the entry whose key is
`k`; a missing key leaves the list unchanged. -/
def dictSetValue {α : Type} (es : List (String × α)) (k : String) (v : α) :
    List (String × α) :=
  es.map fun e => if e.1 = k then (k, v) else e

/-- Python dict assignment `d[k] = v`: replace in place when the key
exists, append otherwise (insertion order preserved). -/
def dictInsert {α : Type} (es : List (String × α)) (k : String) (v : α) :
    List (String × α) :=
  if (dictLookup k es).isSome then dictSetValue es k v else es ++ [(k, v)]

/-- The key-merge loop `for key, value in data.items(): self._data[key] = value`
of SonosGroup.update_data (group.py): every key present in `data`
overwrites the stored value; a NotRequired key absent from `data` keeps
the stored value. -/
def mergeGroupData (old new : GroupData) : GroupData :=
  { id := new.id
    name := new.name
    coordinatorId := new.coordinatorId
    playerIds := new.playerIds
    playbackState := new.playbackState <|> old.playbackState
    areaIds := new.areaIds <|> old.areaIds }

/-- SonosGroup.update_data (group.py lines 163-175): skip when the
incoming dict equals the stored dict, otherwise merge the incoming keys
over the stored data and emit one GROUP_UPDATED event carrying
`data["id"]`.  Returns the new stored data and the emitted events. -/
def SonosGroup.update_data (old data : GroupData) :
    GroupData × List SonosEvent :=
  if data = old then (old, [])
  else (mergeGroupData old data, [⟨EventType.groupUpdated, data.id⟩])

/-- The mutable state of the single managed SonosPlayer (player.py):
its data dict and the id of its `_active_group` reference. -/
structure PlayerState where
  pdata : PlayerData
  activeGroupId : String
  deriving DecidableEq, Repr

/-- The active-group scan of SonosPlayer.update_data (player.py lines
114-117): walk `client.groups` (the group dict values in insertion
order) and take the first group whose coordinatorId equals the player
id or whose playerIds contains the player id; `none` when no group
matches. -/
def resolveActiveGroup (groups : List (String × GroupData))
    (playerId : String) : Option String :=
  (groups.find? fun g =>
      g.2.coordinatorId == playerId || g.2.playerIds.contains playerId).map
    fun g => g.2.id

/-- SonosPlayer.update_data (player.py lines 111-128): re-resolve the
active group (keeping the old reference when no group matches), skip
when the incoming dict equals the stored dict and the resolved
active-group id equals the previous one, otherwise overwrite every key
of the player data and emit one PLAYER_UPDATED event carrying
`data["id"]`. -/
def SonosPlayer.update_data (groups : List (String × GroupData))
    (st : PlayerState) (data : PlayerData) : PlayerState × List SonosEvent :=
  let newActive := (resolveActiveGroup groups st.pdata.id).getD st.activeGroupId
  if data = st.pdata ∧ st.activeGroupId = newActive then
    ({ st with activeGroupId := newActive }, [])
  else
    ({ pdata := data, activeGroupId := newActive },
     [⟨EventType.playerUpdated, data.id⟩])

/-- One entry of SonosApiClient._subscribers (client.py): the callback
(identified by a token, since functions compare by identity), the
optional event-kind filter tuple and the optional object-id filter
tuple. -/
structure Subscription where
  cb : Nat
  eventFilter : Option (List EventType) := none
  idFilter : Option (List String) := none
  deriving DecidableEq, Repr

/-- SonosApiClient.subscribe (client.py lines 80-105): append the
listener tuple to the subscriber list. -/
def subscribeListener (subs : List Subscription) (s : Subscription) :
    List Subscription :=
  subs ++ [s]

/-- Python list.remove as used by the returned remove_listener closure
(client.py line 103): drop the first element equal to the listener, or
raise ValueError when no equal element exists. -/
def removeListener (subs : List Subscription) (s : Subscription) :
    Except String (List Subscription) :=
  match subs with
  | [] => .error "ValueError"
  | x :: xs =>
    if x = s then .ok xs
    else (removeListener xs s).map fun ys => x :: ys

/-- The filter test of SonosApiClient.signal_event (client.py lines
109-113): deliver unless the event filter is present and misses the
event kind, or the id filter is present and misses the object id. -/
def subscriptionMatches (s : Subscription) (ev : SonosEvent) : Bool :=
  (match s.eventFilter with
   | none => true
   | some fs => fs.contains ev.event) &&
  (match s.idFilter with
   | none => true
   | some ids => ids.contains ev.object_id)

/-- SonosApiClient.signal_event (client.py lines 107-114): invoke the
callback of every subscription passing both filters; the result lists
the subscriptions that receive the event, in registration order. -/
def signal_event (subs : List Subscription) (ev : SonosEvent) :
    List Subscription :=
  subs.filter fun s => subscriptionMatches s ev

/-- The lifecycle of an asyncio.Future held in _result_futures
(api/websockets.py): pending until set_result, set_exception (a
FailedCommand carrying errorCode and reason) or cancel resolves it;
the result payload is the reply body dict, modelled as a string-keyed
association list. -/
inductive FutureState where
  | pending
  | result (body : List (String × String))
  | failed (errorCode : String) (reason : String)
  | cancelled
  deriving DecidableEq, Repr

/-- The state of SonosLocalWebSocketsApi that the correlator touches:
the _stop_called flag, whether a live websocket is attached
(`self._ws_client is not None and not closed`), whether _loop is set,
and the _result_futures table keyed by cmdId. -/
structure ApiState where
  stopCalled : Bool
  connected : Bool
  loopSet : Bool
  futures : List (String × FutureState)
  deriving DecidableEq, Repr

/-- asyncio.Future.cancel: a pending future becomes cancelled, a done
future is left unchanged. -/
def cancelFuture : FutureState → FutureState
  | .pending => .cancelled
  | s => s

/-- SonosLocalWebSocketsApi.disconnect (api/websockets.py lines
194-203): set _stop_called, cancel every future in _result_futures,
close and drop the websocket.  The table itself is not cleared;
send_command pops each entry when its await resumes. -/
def disconnect (st : ApiState) : ApiState :=
  { st with
    stopCalled := true
    connected := false
    futures := st.futures.map fun e => (e.1, cancelFuture e.2) }

/-- asyncio.Future.set_result: stores the value on a pending future and
raises InvalidStateError on a future that is already done (including a
cancelled one), so a cancelled waiter can never be handed a value. -/
def setFutureResult (f : FutureState) (body : List (String × String)) :
    Except String FutureState :=
  match f with
  | .pending => .ok (.result body)
  | _ => .error "InvalidStateError"

/-- The header of an incoming message (the ResultMessage TypedDict of
api/models.py), restricted to the keys _handle_incoming_message reads:
NotRequired success and cmdId, and the optional event type. -/
structure IncomingHeader where
  success : Option Bool := none
  cmdId : Option String := none
  type : Option String := none
  deriving DecidableEq, Repr

/-- Exceptions a synchronous handler can raise: KeyError from indexing
a dict with a missing key, and asyncio's InvalidStateError from
resolving a future that is already done. -/
inductive PyError where
  | keyError (k : String)
  | futureInvalidState
  deriving DecidableEq, Repr

/-- The command-reply half of _handle_incoming_message (api/websockets.py
lines 263-274), run when the header carries a success key: look up the
pending future for msg["cmdId"] (silent no-op when there is none), then
set_result(msg_data) on success and
set_exception(FailedCommand(msg_data["errorCode"], msg_data["reason"]))
on failure.  Indexing a missing key raises KeyError; when the header
carries no success key this branch leaves the table alone. -/
def handleIncomingMessage (futures : List (String × FutureState))
    (hdr : IncomingHeader) (body : List (String × String)) :
    Except PyError (List (String × FutureState)) :=
  match hdr.success with
  | none => .ok futures
  | some ok =>
    match hdr.cmdId with
    | none => .error (.keyError "cmdId")
    | some cid =>
      match dictLookup cid futures with
      | none => .ok futures
      | some f =>
        if ok then
          match f with
          | .pending => .ok (dictSetValue futures cid (.result body))
          | _ => .error .futureInvalidState
        else
          match dictLookup "errorCode" body with
          | none => .error (.keyError "errorCode")
          | some ec =>
            match dictLookup "reason" body with
            | none => .error (.keyError "reason")
            | some r =>
              match f with
              | .pending => .ok (dictSetValue futures cid (.failed ec r))
              | _ => .error .futureInvalidState

/-- The header of an outgoing command (the CommandMessage TypedDict of
api/models.py): namespace, command, the generated cmdId, and the path
parameters passed as kwargs. -/
structure CommandMessage where
  nspace : String
  command : String
  cmdId : String
  pathParams : List (String × String) := []
  deriving DecidableEq, Repr

/-- A transmitted two-part wire unit [CommandMessage, body] as handed
to _send_message. -/
structure SentMessage where
  message : CommandMessage
  body : List (String × String)
  deriving DecidableEq, Repr

/-- SonosLocalWebSocketsApi._send_message (api/websockets.py lines
322-338): raises NotConnected when no live socket is attached,
otherwise transmits the [header, body] unit. -/
def sendMessageTx (st : ApiState) (m : SentMessage) :
    Except String SentMessage :=
  if st.connected then .ok m else .error "NotConnected"

/-- The transmission step of SonosLocalWebSocketsApi.send_command
(api/websockets.py lines 95-120): guard `self.connected and self._loop`
(InvalidState otherwise), build the CommandMessage with a fresh cmdId
(passed in, since uuid4 is an external source of uniqueness), register
a pending future under that cmdId, and send [command_message,
options or empty-dict].  Returns the post-send state and the
transmitted unit. -/
def sendCommandTx (st : ApiState) (nspace command : String)
    (options : Option (List (String × String)))
    (pathParams : List (String × String)) (cmdId : String) :
    Except String (ApiState × SentMessage) :=
  if st.connected && st.loopSet then
    let cm : CommandMessage := ⟨nspace, command, cmdId, pathParams⟩
    let st2 : ApiState :=
      { st with futures := dictInsert st.futures cmdId FutureState.pending }
    (sendMessageTx st2 ⟨cm, options.getD []⟩).map fun m => (st2, m)
  else .error "InvalidState"

/-- SonosLocalWebSocketsApi.send_command_no_wait (api/websockets.py
lines 122-142): guard `self.connected` (InvalidState otherwise), build
the same CommandMessage, and schedule the same transmission without
registering any future.  Returns the post-call state and the
transmitted unit. -/
def sendCommandNoWait (st : ApiState) (nspace command : String)
    (options : Option (List (String × String)))
    (pathParams : List (String × String)) (cmdId : String) :
    Except String (ApiState × SentMessage) :=
  if st.connected then
    let cm : CommandMessage := ⟨nspace, command, cmdId, pathParams⟩
    (sendMessageTx st ⟨cm, options.getD []⟩).map fun m => (st, m)
  else .error "InvalidState"

/-- The frame types of aiohttp.WSMsgType that
receive_message_or_raise distinguishes. -/
inductive WSFrameType where
  | close
  | closed
  | closing
  | wserror
  | text
  | binary
  deriving DecidableEq, Repr

/-- A parsed JSON value, the possible results of orjson.loads. -/
inductive Json where
  | null
  | bool (b : Bool)
  | num (n : Int)
  | str (s : String)
  | arr (xs : List Json)
  | obj (fields : List (String × Json))

/-- An inbound websocket frame: its type and, for text frames, the
outcome of JSON-parsing its data (`none` models text that orjson.loads
rejects). -/
structure WSFrame where
  type : WSFrameType
  data : Option Json := none

/-- Modelled from the spec: the error taxonomy of aiosonos.exceptions
raised by the receive path (exceptions.py is not included in the
sources; the spec lists ConnectionClosed, ConnectionFailed,
InvalidMessage). -/
inductive ReceiveError where
  | connectionClosed
  | connectionFailed
  | invalidMessage
  deriving DecidableEq, Repr

/-- SonosLocalWebSocketsApi.receive_message_or_raise (api/websockets.py
lines 294-320): CLOSE/CLOSED/CLOSING raise ConnectionClosed, ERROR
raises ConnectionFailed, any non-TEXT frame raises InvalidMessage, a
text frame that fails to parse as JSON raises InvalidMessage, and any
successfully parsed JSON value is returned as-is (no shape check). -/
def receive_message_or_raise (m : WSFrame) : Except ReceiveError Json :=
  if m.type = .close ∨ m.type = .closed ∨ m.type = .closing then
    .error .connectionClosed
  else if m.type = .wserror then
    .error .connectionFailed
  else if m.type ≠ .text then
    .error .invalidMessage
  else
    match m.data with
    | none => .error .invalidMessage
    | some j => .ok j

/-- The shape check that the spec ascribes to the receive path: a
two-part [header, body] JSON array. -/
def isTwoPartArray : Json → Bool
  | .arr [_, _] => true
  | _ => false

/-- SonosPlayer.is_coordinator (player.py lines 72-75): the player
leads its active group when the group's coordinatorId equals the
player id.  The active group's data is passed explicitly. -/
def SonosPlayer.is_coordinator (activeGroup : GroupData)
    (pdata : PlayerData) : Bool :=
  activeGroup.coordinatorId == pdata.id

/-- SonosPlayer.is_passive as written (player.py lines 77-80): the body
evaluates `self.group.coordinator_id == self.id`, the same expression
as is_coordinator, although its docstring promises the negation. -/
def SonosPlayer.is_passive (activeGroup : GroupData)
    (pdata : PlayerData) : Bool :=
  activeGroup.coordinatorId == pdata.id

/-- The Groups TypedDict of api/models.py (a groups event or response):
the full group list and the full player list.  The unused `partial`
flag is not modelled. -/
structure GroupsData where
  groups : List GroupData
  players : List PlayerData
  deriving DecidableEq, Repr

/-- The state of SonosApiClient that _handle_groups_event touches: the
_groups dict (insertion-ordered, keyed by group id), the managed
_player_id and the managed player's state. -/
structure ClientState where
  groups : List (String × GroupData)
  playerId : String
  player : PlayerState
  deriving DecidableEq, Repr

/-- The first loop of _handle_groups_event (client.py lines 160-166):
for each incoming group in order, update the existing SonosGroup in
place when its id is already a key of _groups, otherwise defer the
group to a scheduled _setup_group task.  Returns the updated entries,
the GROUP_UPDATED events emitted, and the deferred new groups in
scheduling order. -/
def handleIncomingGroups (entries : List (String × GroupData)) :
    List GroupData →
    List (String × GroupData) × List SonosEvent × List GroupData
  | [] => (entries, [], [])
  | d :: rest =>
    match dictLookup d.id entries with
    | some old =>
      let u := SonosGroup.update_data old d
      let r := handleIncomingGroups (dictSetValue entries d.id u.1) rest
      (r.1, u.2 ++ r.2.1, r.2.2)
    | none =>
      let r := handleIncomingGroups entries rest
      (r.1, r.2.1, d :: r.2.2)

/-- The removal step of _handle_groups_event (client.py lines 168-177):
`set(self._groups.keys()) - incoming ids` is popped from the dict, one
GROUP_REMOVED event per removed id.  Python's set iteration order is
unspecified; it is determinised here to dictionary order, which fixes
only the order of the emitted events, not their multiset. -/
def removeAbsentGroups (entries : List (String × GroupData))
    (incomingIds : List String) :
    List (String × GroupData) × List SonosEvent :=
  (entries.filter fun e => incomingIds.contains e.1,
   ((entries.map Prod.fst).filter fun k => !(incomingIds.contains k)).map
     fun k => ⟨EventType.groupRemoved, k⟩)

/-- The player loop of _handle_groups_event (client.py lines 179-182):
every incoming player entry whose id equals the managed _player_id is
fed to SonosPlayer.update_data against the current group entries. -/
def handlePlayersData (groups : List (String × GroupData)) (pid : String)
    (pst : PlayerState) : List PlayerData → PlayerState × List SonosEvent
  | [] => (pst, [])
  | d :: rest =>
    if d.id = pid then
      let u := SonosPlayer.update_data groups pst d
      let r := handlePlayersData groups pid u.1 rest
      (r.1, u.2 ++ r.2)
    else handlePlayersData groups pid pst rest

/-- The deferred _setup_group tasks (client.py lines 166 and 184-194),
run by the event loop after the synchronous handler returns, in
creation order: each inserts its group into _groups and emits one
GROUP_ADDED event carrying the group id. -/
def setupGroups (entries : List (String × GroupData)) :
    List GroupData → List (String × GroupData) × List SonosEvent
  | [] => (entries, [])
  | d :: rest =>
    let r := setupGroups (dictInsert entries d.id d) rest
    (r.1, ⟨EventType.groupAdded, d.id⟩ :: r.2)

/-- SonosApiClient._handle_groups_event (client.py lines 157-182)
together with the _setup_group tasks it schedules: update existing
groups in place, remove the groups absent from the incoming set, update
the managed player against the post-removal snapshot (the scheduled
additions have not run yet at that point), then run the deferred
additions.  Returns the new client state and every emitted event. -/
def handleGroupsEvent (st : ClientState) (gd : GroupsData) :
    ClientState × List SonosEvent :=
  let p1 := handleIncomingGroups st.groups gd.groups
  let p2 := removeAbsentGroups p1.1 (gd.groups.map GroupData.id)
  let p3 := handlePlayersData p2.1 st.playerId st.player gd.players
  let p4 := setupGroups p2.1 p1.2.2
  (⟨p4.1, st.playerId, p3.1⟩, p1.2.1 ++ p2.2 ++ p3.2 ++ p4.2)

/-- Concrete group A of the reconciliation scenario. -/
def gA : GroupData :=
  { id := "A", name := "Group A", coordinatorId := "P1", playerIds := ["P1"] }

/-- Concrete group B of the reconciliation scenario. -/
def gB : GroupData :=
  { id := "B", name := "Group B", coordinatorId := "P2", playerIds := ["P2"] }

/-- Concrete group C of the reconciliation scenario. -/
def gC : GroupData :=
  { id := "C", name := "Group C", coordinatorId := "P3", playerIds := ["P3"] }

/-- Client snapshot holding exactly groups A and B. -/
def stEx : ClientState :=
  { groups := [("A", gA), ("B", gB)]
    playerId := "PX"
    player :=
      { pdata := { id := "PX", name := "X", websocketUrl := "wss://x" }
        activeGroupId := "A" } }

/-- Incoming groups event carrying A unchanged and the new group C. -/
def gdEx : GroupsData := { groups := [gA, gC], players := [] }

/-- Stored group data holding the NotRequired playbackState key. -/
def g8old : GroupData :=
  { id := "G1", name := "N", coordinatorId := "P1", playerIds := ["P1"]
    playbackState := some "PLAYBACK_STATE_PLAYING" }

/-- Incoming group data identical to g8old except that the
playbackState key is absent. -/
def g8new : GroupData :=
  { id := "G1", name := "N", coordinatorId := "P1", playerIds := ["P1"] }

/-- A single registered listener. -/
def subC4 : Subscription := { cb := 1 }

/-- A listener filtered to kind GROUP_ADDED and object id G3. -/
def subG3 : Subscription :=
  { cb := 2, eventFilter := some [.groupAdded], idFilter := some ["G3"] }

/-- A listener with both filters absent. -/
def subAll : Subscription := { cb := 3 }

/-- Pending-command table holding one pending waiter for cmdId c1. -/
def futC2 : List (String × FutureState) := [("c1", .pending)]

/-- Reply header with success false correlated to cmdId c1. -/
def hdrC2 : IncomingHeader := { success := some false, cmdId := some "c1" }

/-- Reply body carrying errorCode but no reason key (ErrorResponse in
api/models.py marks reason NotRequired). -/
def bodyNoReason : List (String × String) := [("errorCode", "401")]

/-- Reply body carrying both errorCode and reason. -/
def bodyFull : List (String × String) :=
  [("errorCode", "401"), ("reason", "ERROR_INVALID_PARAMETER")]

/-- Connected api state with two pending waiters. -/
def stC3 : ApiState :=
  { stopCalled := false, connected := true, loopSet := true
    futures := [("c1", .pending), ("c2", .pending)] }

/-- A group whose coordinator is player P1. -/
def gC10 : GroupData :=
  { id := "G", name := "G", coordinatorId := "P1", playerIds := ["P1", "P2"] }

/-- The player P1, coordinator of its active group gC10. -/
def pC10 : PlayerData := { id := "P1", name := "One", websocketUrl := "wss://p1" }

/-- Python list.remove raises ValueError when no equal element is in
the list. -/
theorem removeListener_not_mem (subs : List Subscription) (s : Subscription)
    (h : s ∉ subs) : removeListener subs s = .error "ValueError" := by
  induction subs with
  | nil => rfl
  | cons x xs ih =>
    have hx : ¬(x = s) := fun hh => h (hh ▸ List.mem_cons_self x xs)
    have hs : s ∉ xs := fun hm => h (List.mem_cons_of_mem x hm)
    simp [removeListener, hx, ih hs, Except.map]

/-- Removing a listener that was appended to a list not containing it
returns the original list. -/
theorem removeListener_append_single (subs : List Subscription)
    (s : Subscription) (h : s ∉ subs) :
    removeListener (subs ++ [s]) s = .ok subs := by
  induction subs with
  | nil => simp [removeListener]
  | cons x xs ih =>
    have hx : ¬(x = s) := fun hh => h (hh ▸ List.mem_cons_self x xs)
    have hs : s ∉ xs := fun hm => h (List.mem_cons_of_mem x hm)
    simp [removeListener, hx, ih hs, Except.map]

/-- C4 counterexample: subscribe one listener, unsubscribe it once
(returning to the empty list), and the second call of the unsubscribe
closure is not a no-op: list.remove raises ValueError. -/
theorem unsubscribe_twice_raises_cex :
    removeListener (subscribeListener [] subC4) subC4 = .ok [] ∧
    removeListener [] subC4 = .error "ValueError" := ⟨rfl, rfl⟩

/-- C4 (amended): the first call of the unsubscribe closure removes the
listener; a second call, made when no equal listener remains in the
subscriber list, raises ValueError instead of being a no-op. -/
theorem unsubscribe_twice_raises (subs : List Subscription)
    (s : Subscription) (h : s ∉ subs) :
    removeListener (subscribeListener subs s) s = .ok subs ∧
    removeListener subs s = .error "ValueError" :=
  ⟨removeListener_append_single subs s h, removeListener_not_mem subs s h⟩

/-- C4 witness: the amended statement evaluated on a one-listener
registry. -/
theorem unsubscribe_twice_raises_witness :
    subC4 ∉ ([] : List Subscription) ∧
    removeListener (subscribeListener [] subC4) subC4 = .ok [] ∧
    removeListener [] subC4 = .error "ValueError" :=
  ⟨by decide, (unsubscribe_twice_raises [] subC4 (by decide)).1,
   (unsubscribe_twice_raises [] subC4 (by decide)).2⟩

/-- C8 counterexample: incoming data equal to the stored data except
that the NotRequired playbackState key is absent.  The update emits
GROUP_UPDATED but the stored result keeps the stale playbackState, so
it is not the incoming data. -/
theorem group_update_keeps_stale_key_cex :
    g8new ≠ g8old ∧
    (SonosGroup.update_data g8old g8new).2 =
      [⟨EventType.groupUpdated, "G1"⟩] ∧
    (SonosGroup.update_data g8old g8new).1 ≠ g8new :=
  ⟨by decide, by decide, by decide⟩

/-- C8 (amended): equal incoming data is skipped with no event;
otherwise exactly one GROUP_UPDATED is emitted and each key present in
the incoming data overwrites the stored one, so the stored data equals
the incoming data whenever the incoming data carries every NotRequired
key the stored data has. -/
theorem group_update_data_spec (old data : GroupData) :
    (data = old → SonosGroup.update_data old data = (old, [])) ∧
    (data ≠ old →
      (SonosGroup.update_data old data).2 =
        [⟨EventType.groupUpdated, data.id⟩] ∧
      (SonosGroup.update_data old data).1 = mergeGroupData old data ∧
      ((old.playbackState.isSome → data.playbackState.isSome) →
        (old.areaIds.isSome → data.areaIds.isSome) →
        (SonosGroup.update_data old data).1 = data)) := by
  constructor
  · intro h
    simp [SonosGroup.update_data, h]
  · intro h
    refine ⟨by simp [SonosGroup.update_data, h], by simp [SonosGroup.update_data, h], ?_⟩
    intro hps har
    have h1 : old.playbackState = none ∨ data.playbackState.isSome := by
      cases h2 : old.playbackState with
      | none => exact Or.inl rfl
      | some u => exact Or.inr (hps (by simp [h2]))
    have h2 : old.areaIds = none ∨ data.areaIds.isSome := by
      cases h3 : old.areaIds with
      | none => exact Or.inl rfl
      | some u => exact Or.inr (har (by simp [h3]))
    obtain ⟨i0, n0, c0, p0, ps0, ar0⟩ := data
    simp only [SonosGroup.update_data, if_neg h, mergeGroupData]
    cases ps0 with
    | some v =>
      cases ar0 with
      | some w => rfl
      | none =>
        rcases h2 with h2 | h2
        · simp [h2]
        · simp at h2
    | none =>
      rcases h1 with h1 | h1
      · cases ar0 with
        | some w => simp [h1]
        | none =>
          rcases h2 with h2 | h2
          · simp [h1, h2]
          · simp at h2
      · simp at h1

/-- C8 witness: the amended statement evaluated on concrete data, in
the skip direction and in the direction where the incoming data carries
every key. -/
theorem group_update_data_spec_witness :
    SonosGroup.update_data gA gA = (gA, []) ∧
    (g8old ≠ g8new ∧
      (SonosGroup.update_data g8new g8old).2 =
        [⟨EventType.groupUpdated, "G1"⟩] ∧
      (SonosGroup.update_data g8new g8old).1 = g8old) :=
  ⟨(group_update_data_spec gA gA).1 rfl,
   by decide,
   ((group_update_data_spec g8new g8old).2 (by decide)).1,
   ((group_update_data_spec g8new g8old).2 (by decide)).2.2
     (by decide) (by decide)⟩

/-- C7 counterexample: a text frame whose payload parses as the JSON
number 5, which is not a two-part [header, body] array, is returned
successfully instead of raising InvalidMessage. -/
theorem receive_returns_unvalidated_json_cex :
    receive_message_or_raise ⟨.text, some (.num 5)⟩ = .ok (.num 5) ∧
    isTwoPartArray (.num 5) = false := ⟨rfl, rfl⟩

/-- C7 (amended): receive_message_or_raise raises ConnectionClosed on a
CLOSE/CLOSED/CLOSING frame, ConnectionFailed on an ERROR frame, and
InvalidMessage when the frame is not text or its text is not valid
JSON; any successfully parsed JSON value, two-part array or not, is
returned without shape validation. -/
theorem receive_message_classification (m : WSFrame) :
    (m.type = .close ∨ m.type = .closed ∨ m.type = .closing →
      receive_message_or_raise m = .error .connectionClosed) ∧
    (m.type = .wserror →
      receive_message_or_raise m = .error .connectionFailed) ∧
    (m.type = .binary →
      receive_message_or_raise m = .error .invalidMessage) ∧
    (m.type = .text → m.data = none →
      receive_message_or_raise m = .error .invalidMessage) ∧
    (∀ j, m.type = .text → m.data = some j →
      receive_message_or_raise m = .ok j) := by
  obtain ⟨t, d⟩ := m
  cases t <;>
    simp only [receive_message_or_raise] <;>
    refine ⟨?_, ?_, ?_, ?_, ?_⟩ <;>
    intro h <;> simp_all

/-- C7 witness: the amended classification evaluated on one frame of
each class. -/
theorem receive_message_classification_witness :
    receive_message_or_raise ⟨.close, none⟩ = .error .connectionClosed ∧
    receive_message_or_raise ⟨.wserror, none⟩ = .error .connectionFailed ∧
    receive_message_or_raise ⟨.binary, none⟩ = .error .invalidMessage ∧
    receive_message_or_raise ⟨.text, none⟩ = .error .invalidMessage ∧
    receive_message_or_raise ⟨.text, some .null⟩ = .ok .null :=
  ⟨(receive_message_classification ⟨.close, none⟩).1 (Or.inl rfl),
   (receive_message_classification ⟨.wserror, none⟩).2.1 rfl,
   (receive_message_classification ⟨.binary, none⟩).2.2.1 rfl,
   (receive_message_classification ⟨.text, none⟩).2.2.2.1 rfl rfl,
   (receive_message_classification ⟨.text, some .null⟩).2.2.2.2 .null rfl rfl⟩

/-- C10: is_passive, as written, evaluates the very expression of
is_coordinator, so the two properties agree on every player; in
particular the coordinator of its active group gets is_passive = true,
contradicting the is_passive docstring. -/
theorem is_passive_eq_is_coordinator :
    (∀ g p, SonosPlayer.is_passive g p = SonosPlayer.is_coordinator g p) ∧
    SonosPlayer.is_coordinator gC10 pC10 = true ∧
    SonosPlayer.is_passive gC10 pC10 = true :=
  ⟨fun _ _ => rfl, rfl, rfl⟩

/-- C2: a success-false reply whose body carries both errorCode and
reason resolves the matching pending waiter with FailedCommand holding
exactly those two fields, but a body without the reason key — legal per
ErrorResponse, whose reason is NotRequired — makes the handler raise
KeyError instead, leaving the waiter pending. -/
theorem handle_reply_missing_reason :
    dictLookup "c1" futC2 = some FutureState.pending ∧
    handleIncomingMessage futC2 hdrC2 bodyFull =
      .ok [("c1", FutureState.failed "401" "ERROR_INVALID_PARAMETER")] ∧
    handleIncomingMessage futC2 hdrC2 bodyNoReason =
      .error (.keyError "reason") := ⟨rfl, rfl, rfl⟩

/-- C9: with a live socket and loop, send_command_no_wait performs the
very transmission of send_command — the same [CommandMessage, body]
unit for the same arguments and generated cmdId — while leaving the
pending-command table untouched, where send_command registers a pending
future under the cmdId. -/
theorem send_no_wait_same_tx (st : ApiState) (nspace command : String)
    (options : Option (List (String × String)))
    (pathParams : List (String × String)) (cmdId : String)
    (h1 : st.connected = true) (h2 : st.loopSet = true) :
    sendCommandNoWait st nspace command options pathParams cmdId =
      .ok (st, ⟨⟨nspace, command, cmdId, pathParams⟩, options.getD []⟩) ∧
    sendCommandTx st nspace command options pathParams cmdId =
      .ok ({ st with
              futures := dictInsert st.futures cmdId FutureState.pending },
           ⟨⟨nspace, command, cmdId, pathParams⟩, options.getD []⟩) := by
  constructor <;>
    simp [sendCommandNoWait, sendCommandTx, sendMessageTx, h1, h2, Except.map]

/-- C9 witness: the transmissions compared on a concrete connected
state. -/
theorem send_no_wait_same_tx_witness :
    stC3.connected = true ∧ stC3.loopSet = true ∧
    sendCommandNoWait stC3 "groups:1" "getGroups" none [] "cid1" =
      .ok (stC3, ⟨⟨"groups:1", "getGroups", "cid1", []⟩, []⟩) ∧
    sendCommandTx stC3 "groups:1" "getGroups" none [] "cid1" =
      .ok ({ stC3 with
              futures := dictInsert stC3.futures "cid1" FutureState.pending },
           ⟨⟨"groups:1", "getGroups", "cid1", []⟩, []⟩) :=
  ⟨rfl, rfl,
   (send_no_wait_same_tx stC3 "groups:1" "getGroups" none [] "cid1" rfl rfl).1,
   (send_no_wait_same_tx stC3 "groups:1" "getGroups" none [] "cid1" rfl rfl).2⟩

/-- C3: disconnect cancels every waiter pending in _result_futures, and
afterwards no table entry can be handed a value: set_result on any
remaining future raises InvalidStateError.  The cancelled count after
disconnect covers every previously pending entry. -/
theorem disconnect_cancels_pending (st : ApiState) :
    (∀ k f, (k, f) ∈ st.futures → f = FutureState.pending →
      (k, FutureState.cancelled) ∈ (disconnect st).futures) ∧
    (∀ k f, (k, f) ∈ (disconnect st).futures →
      ∀ body, setFutureResult f body = .error "InvalidStateError") ∧
    List.countP (fun e => e.2 == FutureState.cancelled)
        (disconnect st).futures =
      List.countP
        (fun e => e.2 == FutureState.pending || e.2 == FutureState.cancelled)
        st.futures := by
  refine ⟨?_, ?_, ?_⟩
  · intro k f hm hf
    subst hf
    exact List.mem_map_of_mem (fun e => (e.1, cancelFuture e.2)) hm
  · intro k f hm body
    simp only [disconnect, List.mem_map] at hm
    obtain ⟨⟨k0, f0⟩, _, heq⟩ := hm
    have hf : f = cancelFuture f0 := (Prod.mk.injEq _ _ _ _ ▸ heq).2.symm
    subst hf
    cases f0 <;> rfl
  · simp only [disconnect, List.countP_map]
    apply List.countP_congr
    intro e _
    obtain ⟨k0, f0⟩ := e
    cases f0 <;> simp [Function.comp, cancelFuture]

/-- C3 witness: both conclusions evaluated on a table holding two
pending waiters. -/
theorem disconnect_cancels_pending_witness :
    ("c1", FutureState.pending) ∈ stC3.futures ∧
    ("c1", FutureState.cancelled) ∈ (disconnect stC3).futures ∧
    List.countP (fun e => e.2 == FutureState.cancelled)
        (disconnect stC3).futures =
      List.countP
        (fun e => e.2 == FutureState.pending || e.2 == FutureState.cancelled)
        stC3.futures :=
  ⟨by decide,
   (disconnect_cancels_pending stC3).1 "c1" FutureState.pending (by decide) rfl,
   (disconnect_cancels_pending stC3).2.2⟩

/-- The filter test of signal_event as a proposition: the event filter
is absent or contains the kind, and the id filter is absent or contains
the object id. -/
theorem subscriptionMatches_iff (s : Subscription) (ev : SonosEvent) :
    subscriptionMatches s ev = true ↔
      (s.eventFilter = none ∨
        ∃ fs, s.eventFilter = some fs ∧ ev.event ∈ fs) ∧
      (s.idFilter = none ∨
        ∃ ids, s.idFilter = some ids ∧ ev.object_id ∈ ids) := by
  unfold subscriptionMatches
  cases h1 : s.eventFilter <;> cases h2 : s.idFilter <;> simp [h1, h2]

/-- C5: signal_event delivers an event to a registered subscription
exactly when the event-kind filter is absent or contains the event's
kind and the object-id filter is absent or contains the event's
object id. -/
theorem signal_event_iff (subs : List Subscription) (ev : SonosEvent)
    (s : Subscription) :
    s ∈ signal_event subs ev ↔
      s ∈ subs ∧
      (s.eventFilter = none ∨
        ∃ fs, s.eventFilter = some fs ∧ ev.event ∈ fs) ∧
      (s.idFilter = none ∨
        ∃ ids, s.idFilter = some ids ∧ ev.object_id ∈ ids) := by
  rw [signal_event, List.mem_filter, subscriptionMatches_iff]

/-- C5 witness: the subscription filtered to GROUP_ADDED and G3
receives the matching event and not a kind-mismatched one; the
unfiltered subscription receives an arbitrary event. -/
theorem signal_event_iff_witness :
    subG3 ∈ signal_event [subG3, subAll] ⟨.groupAdded, "G3"⟩ ∧
    subAll ∈ signal_event [subG3, subAll] ⟨.groupUpdated, "X"⟩ ∧
    subG3 ∉ signal_event [subG3, subAll] ⟨.groupUpdated, "G3"⟩ :=
  ⟨(signal_event_iff [subG3, subAll] ⟨.groupAdded, "G3"⟩ subG3).mpr
      ⟨by decide, Or.inr ⟨[.groupAdded], rfl, by decide⟩,
       Or.inr ⟨["G3"], rfl, by decide⟩⟩,
   (signal_event_iff [subG3, subAll] ⟨.groupUpdated, "X"⟩ subAll).mpr
      ⟨by decide, Or.inl rfl, Or.inl rfl⟩,
   fun h => by
     rcases (signal_event_iff [subG3, subAll] ⟨.groupUpdated, "G3"⟩
         subG3).mp h with ⟨-, hef, -⟩
     rcases hef with h0 | ⟨fs, hfs, hmem⟩
     · exact absurd h0 (by decide)
     · rw [show subG3.eventFilter = some [EventType.groupAdded] from rfl]
         at hfs
       injection hfs with hfs
       subst hfs
       exact absurd hmem (by decide)⟩

/-- C6: the active group is re-resolved by scanning the snapshot for a
group whose coordinatorId equals the player id or whose playerIds
contains it; when the incoming dict equals the stored one and the
resolved active-group id equals the previous one nothing happens,
otherwise the data is updated and exactly one PLAYER_UPDATED event is
emitted. -/
theorem player_update_data_spec (groups : List (String × GroupData))
    (st : PlayerState) (data : PlayerData) :
    (∀ gid, resolveActiveGroup groups st.pdata.id = some gid →
      ∃ e ∈ groups, e.2.id = gid ∧
        (e.2.coordinatorId = st.pdata.id ∨ st.pdata.id ∈ e.2.playerIds)) ∧
    ((SonosPlayer.update_data groups st data).1.activeGroupId =
      (resolveActiveGroup groups st.pdata.id).getD st.activeGroupId) ∧
    (data = st.pdata ∧
        st.activeGroupId =
          (resolveActiveGroup groups st.pdata.id).getD st.activeGroupId →
      SonosPlayer.update_data groups st data = (st, [])) ∧
    (¬(data = st.pdata ∧
        st.activeGroupId =
          (resolveActiveGroup groups st.pdata.id).getD st.activeGroupId) →
      (SonosPlayer.update_data groups st data).1.pdata = data ∧
      (SonosPlayer.update_data groups st data).2 =
        [⟨EventType.playerUpdated, data.id⟩]) := by
  refine ⟨?_, ?_, ?_, ?_⟩
  · intro gid hg
    unfold resolveActiveGroup at hg
    rw [Option.map_eq_some'] at hg
    obtain ⟨e, hfind, hid⟩ := hg
    refine ⟨e, List.mem_of_find?_eq_some hfind, hid, ?_⟩
    have hp := List.find?_some hfind
    simpa using hp
  · simp only [SonosPlayer.update_data]
    split <;> rfl
  · intro h
    simp only [SonosPlayer.update_data]
    rw [if_pos h, ← h.2]
  · intro h
    simp only [SonosPlayer.update_data]
    rw [if_neg h]
    exact ⟨rfl, rfl⟩

/-- C6 witness: the skip and the update direction evaluated on the
concrete snapshot. -/
theorem player_update_data_spec_witness :
    SonosPlayer.update_data stEx.groups stEx.player stEx.player.pdata =
      (stEx.player, []) ∧
    (SonosPlayer.update_data stEx.groups stEx.player
        { id := "PX", name := "X2", websocketUrl := "wss://x" }).2 =
      [⟨EventType.playerUpdated, "PX"⟩] :=
  ⟨(player_update_data_spec stEx.groups stEx.player stEx.player.pdata).2.2.1
      ⟨rfl, by decide⟩,
   ((player_update_data_spec stEx.groups stEx.player
        { id := "PX", name := "X2", websocketUrl := "wss://x" }).2.2.2
      (by decide)).2⟩


/-- Rewriting one value in place does not change the key list. -/
theorem dictSetValue_keys {α : Type} (es : List (String × α)) (k : String)
    (v : α) : (dictSetValue es k v).map Prod.fst = es.map Prod.fst := by
  induction es with
  | nil => rfl
  | cons e es ih =>
    simp only [dictSetValue, List.map_cons] at ih ⊢
    by_cases h : e.1 = k
    · simp [h, ih]
    · simp [h, ih]

/-- Rewriting the value of key k0 does not change lookups of other
keys. -/
theorem lookup_dictSetValue_ne {α : Type} (es : List (String × α))
    (k0 k : String) (v : α) (h : k ≠ k0) :
    dictLookup k (dictSetValue es k0 v) = dictLookup k es := by
  induction es with
  | nil => rfl
  | cons e es ih =>
    simp only [dictSetValue] at ih ⊢
    by_cases h1 : e.1 = k0
    · simp [dictLookup, h1, Ne.symm h, ih]
    · simp [dictLookup, h1, ih]

/-- Rewriting the value of an absent key is a no-op for its lookup. -/
theorem lookup_dictSetValue_none {α : Type} (es : List (String × α))
    (k : String) (v : α) (h : dictLookup k es = none) :
    dictLookup k (dictSetValue es k v) = none := by
  induction es with
  | nil => rfl
  | cons e es ih =>
    simp only [dictSetValue] at ih ⊢
    by_cases h1 : e.1 = k
    · simp [dictLookup, h1] at h
    · simp only [dictLookup, if_neg h1] at h
      simp [dictLookup, h1, ih h]

/-- Rewriting the value of a present key makes its lookup return the
new value. -/
theorem lookup_dictSetValue_some {α : Type} (es : List (String × α))
    (k : String) (v : α) (h : (dictLookup k es).isSome) :
    dictLookup k (dictSetValue es k v) = some v := by
  induction es with
  | nil => simp [dictLookup] at h
  | cons e es ih =>
    simp only [dictSetValue] at ih ⊢
    by_cases h1 : e.1 = k
    · simp [dictLookup, h1]
    · simp only [dictLookup, if_neg h1] at h
      simp [dictLookup, h1, ih h]

/-- Rewriting a value never changes which keys are present. -/
theorem lookup_isSome_dictSetValue {α : Type} (es : List (String × α))
    (k0 k : String) (v : α) :
    (dictLookup k (dictSetValue es k0 v)).isSome =
      (dictLookup k es).isSome := by
  by_cases h : k = k0
  · subst h
    cases h2 : dictLookup k es with
    | none => simp [lookup_dictSetValue_none es k v h2, h2]
    | some w => simp [lookup_dictSetValue_some es k v (by rw [h2]; rfl), h2]
  · rw [lookup_dictSetValue_ne es k0 k v h]

/-- Every event of SonosGroup.update_data is the single GROUP_UPDATED
event carrying the incoming id. -/
theorem update_data_events (old data : GroupData) :
    ∀ e ∈ (SonosGroup.update_data old data).2,
      e = ⟨EventType.groupUpdated, data.id⟩ := by
  intro e he
  unfold SonosGroup.update_data at he
  split at he
  · simp at he
  · simpa using he

/-- The first loop of the reconciler keeps the key list of the group
dict: it only rewrites values in place. -/
theorem handleIncomingGroups_keys (gs : List GroupData) :
    ∀ es, (handleIncomingGroups es gs).1.map Prod.fst = es.map Prod.fst := by
  induction gs with
  | nil => intro es; rfl
  | cons d rest ih =>
    intro es
    cases h : dictLookup d.id es with
    | some old =>
      simp only [handleIncomingGroups, h]
      rw [ih, dictSetValue_keys]
    | none =>
      simp only [handleIncomingGroups, h]
      exact ih es

/-- The deferred additions collected by the first loop are the incoming
groups whose id is not a key of the original dict. -/
theorem handleIncomingGroups_pending (gs : List GroupData) :
    ∀ es, (handleIncomingGroups es gs).2.2 =
      gs.filter fun d => !(dictLookup d.id es).isSome := by
  induction gs with
  | nil => intro es; rfl
  | cons d rest ih =>
    intro es
    cases h : dictLookup d.id es with
    | some old =>
      simp only [handleIncomingGroups, h]
      rw [ih, List.filter_cons]
      simp only [h, Option.isSome_some, Bool.not_true, Bool.false_eq_true,
        if_false]
      apply List.filter_congr
      intro a _
      rw [lookup_isSome_dictSetValue]
    | none =>
      simp only [handleIncomingGroups, h]
      rw [ih, List.filter_cons]
      simp [h]

/-- Every event of the first loop is a GROUP_UPDATED event. -/
theorem handleIncomingGroups_events_kind (gs : List GroupData) :
    ∀ es e, e ∈ (handleIncomingGroups es gs).2.1 →
      e.event = EventType.groupUpdated := by
  induction gs with
  | nil => intro es e he; simp [handleIncomingGroups] at he
  | cons d rest ih =>
    intro es e he
    cases h : dictLookup d.id es with
    | some old =>
      simp only [handleIncomingGroups, h, List.mem_append] at he
      rcases he with he | he
      · rw [update_data_events old d e he]
      · exact ih _ e he
    | none =>
      simp only [handleIncomingGroups, h] at he
      exact ih es e he

/-- The first loop emits no event whose object id is the id of an
incoming group whose stored data equals the incoming data. -/
theorem handleIncomingGroups_unchanged_no_event (gs : List GroupData) :
    ∀ es d0, (∀ g ∈ gs, g.id = d0.id → g = d0) →
      dictLookup d0.id es = some d0 →
      ∀ e ∈ (handleIncomingGroups es gs).2.1, e.object_id ≠ d0.id := by
  induction gs with
  | nil => intro es d0 _ _ e he; simp [handleIncomingGroups] at he
  | cons d rest ih =>
    intro es d0 hall hlk e he
    by_cases hid : d.id = d0.id
    · have hd : d = d0 := hall d (List.mem_cons_self d rest) hid
      subst hd
      simp only [handleIncomingGroups, hlk] at he
      have hupd : SonosGroup.update_data d d = (d, []) := by
        simp [SonosGroup.update_data]
      rw [hupd] at he
      simp only [List.nil_append] at he
      exact ih _ d (fun g hg hgid => hall g (List.mem_cons_of_mem d hg) hgid)
        (lookup_dictSetValue_some es d.id d (by rw [hlk]; rfl)) e he
    · cases h : dictLookup d.id es with
      | some old =>
        simp only [handleIncomingGroups, h, List.mem_append] at he
        rcases he with he | he
        · rw [update_data_events old d e he]
          simpa using hid
        · refine ih _ d0 (fun g hg hgid =>
            hall g (List.mem_cons_of_mem d hg) hgid) ?_ e he
          rw [lookup_dictSetValue_ne es d.id d0.id _ fun hh => hid hh.symm]
          exact hlk
      | none =>
        simp only [handleIncomingGroups, h] at he
        exact ih es d0 (fun g hg hgid =>
          hall g (List.mem_cons_of_mem d hg) hgid) hlk e he

/-- The deferred setup tasks emit exactly one GROUP_ADDED event per new
group, in scheduling order. -/
theorem setupGroups_events (pend : List GroupData) :
    ∀ es, (setupGroups es pend).2 =
      pend.map fun d => ⟨EventType.groupAdded, d.id⟩ := by
  induction pend with
  | nil => intro es; rfl
  | cons d rest ih =>
    intro es
    simp only [setupGroups, List.map_cons, ih]

/-- Counting an event in a list built by tagging ids with a fixed kind
counts the id. -/
theorem count_event_map (t : EventType) (ids : List String) (x : String) :
    ((ids.map fun i => (⟨t, i⟩ : SonosEvent)).count ⟨t, x⟩) = ids.count x := by
  induction ids with
  | nil => rfl
  | cons i rest ih =>
    simp [List.count_cons, ih, SonosEvent.mk.injEq]

/-- Tagging ids with one kind yields no event of a different kind. -/
theorem count_event_map_ne (t1 t2 : EventType) (ids : List String)
    (x : String) (h : t1 ≠ t2) :
    ((ids.map fun i => (⟨t1, i⟩ : SonosEvent)).count ⟨t2, x⟩) = 0 := by
  rw [List.count_eq_zero]
  intro hmem
  simp only [List.mem_map] at hmem
  obtain ⟨i, _, heq⟩ := hmem
  exact h (congrArg SonosEvent.event heq)

/-- Counting an event in a list built by tagging group ids with a fixed
kind counts the id among the group ids. -/
theorem count_event_map_groups (t : EventType) (gs : List GroupData)
    (x : String) :
    ((gs.map fun d => (⟨t, d.id⟩ : SonosEvent)).count ⟨t, x⟩) =
      (gs.map GroupData.id).count x := by
  induction gs with
  | nil => rfl
  | cons g rest ih => simp [List.count_cons, ih, SonosEvent.mk.injEq]

/-- Tagging group ids with one kind yields no event of a different
kind. -/
theorem count_event_map_groups_ne (t1 t2 : EventType) (gs : List GroupData)
    (x : String) (h : t1 ≠ t2) :
    ((gs.map fun d => (⟨t1, d.id⟩ : SonosEvent)).count ⟨t2, x⟩) = 0 := by
  rw [List.count_eq_zero]
  intro hmem
  simp only [List.mem_map] at hmem
  obtain ⟨g, _, heq⟩ := hmem
  exact h (congrArg SonosEvent.event heq)

/-- C1: applying a groups event to a snapshot with duplicate-free keys,
duplicate-free incoming ids and no player entries emits exactly one
GROUP_ADDED per incoming group absent from the snapshot, exactly one
GROUP_REMOVED per snapshot group absent from the incoming set, and no
event at all whose object id is that of an existing group stored
unchanged. -/
theorem handleGroupsEvent_delta (st : ClientState) (gd : GroupsData)
    (hk : (st.groups.map Prod.fst).Nodup)
    (hi : (gd.groups.map GroupData.id).Nodup)
    (hp : gd.players = []) :
    (∀ d ∈ gd.groups, dictLookup d.id st.groups = none →
      (handleGroupsEvent st gd).2.count ⟨EventType.groupAdded, d.id⟩ = 1) ∧
    (∀ k, k ∈ st.groups.map Prod.fst → k ∉ gd.groups.map GroupData.id →
      (handleGroupsEvent st gd).2.count ⟨EventType.groupRemoved, k⟩ = 1) ∧
    (∀ d ∈ gd.groups, dictLookup d.id st.groups = some d →
      ∀ e ∈ (handleGroupsEvent st gd).2, e.object_id ≠ d.id) := by
  have hev : (handleGroupsEvent st gd).2 =
      (handleIncomingGroups st.groups gd.groups).2.1 ++
      ((((handleIncomingGroups st.groups gd.groups).1.map Prod.fst).filter
          fun k => !((gd.groups.map GroupData.id).contains k)).map
        fun k => (⟨EventType.groupRemoved, k⟩ : SonosEvent)) ++
      ((handleIncomingGroups st.groups gd.groups).2.2.map
        fun d => (⟨EventType.groupAdded, d.id⟩ : SonosEvent)) := by
    simp only [handleGroupsEvent, removeAbsentGroups, hp, handlePlayersData]
    rw [setupGroups_events]
    simp [List.append_assoc]
  refine ⟨?_, ?_, ?_⟩
  · intro d hd hlk
    rw [hev, List.count_append, List.count_append]
    have hz1 : (handleIncomingGroups st.groups gd.groups).2.1.count
        (⟨EventType.groupAdded, d.id⟩ : SonosEvent) = 0 := by
      rw [List.count_eq_zero]
      intro hmem
      have h2 := handleIncomingGroups_events_kind gd.groups st.groups _ hmem
      simp at h2
    rw [hz1, count_event_map_ne _ _ _ _ (by decide),
      count_event_map_groups, handleIncomingGroups_pending]
    have hmem : d ∈ gd.groups.filter
        fun d => !(dictLookup d.id st.groups).isSome :=
      List.mem_filter.mpr ⟨hd, by simp [hlk]⟩
    have hmem2 : d.id ∈ (gd.groups.filter
        fun d => !(dictLookup d.id st.groups).isSome).map GroupData.id :=
      List.mem_map_of_mem GroupData.id hmem
    have hle : ((gd.groups.filter
          fun d => !(dictLookup d.id st.groups).isSome).map
            GroupData.id).count d.id ≤
        (gd.groups.map GroupData.id).count d.id :=
      List.Sublist.count_le
        (List.Sublist.map GroupData.id (List.filter_sublist gd.groups)) _
    have h1 : (gd.groups.map GroupData.id).count d.id ≤ 1 :=
      List.nodup_iff_count_le_one.mp hi d.id
    have h2 : 0 < ((gd.groups.filter
          fun d => !(dictLookup d.id st.groups).isSome).map
            GroupData.id).count d.id :=
      List.count_pos_iff.mpr hmem2
    omega
  · intro k hkm hkn
    rw [hev, List.count_append, List.count_append]
    have hz1 : (handleIncomingGroups st.groups gd.groups).2.1.count
        (⟨EventType.groupRemoved, k⟩ : SonosEvent) = 0 := by
      rw [List.count_eq_zero]
      intro hmem
      have h2 := handleIncomingGroups_events_kind gd.groups st.groups _ hmem
      simp at h2
    rw [hz1, count_event_map, count_event_map_groups_ne _ _ _ _ (by decide),
      handleIncomingGroups_keys]
    have hmem : k ∈ (st.groups.map Prod.fst).filter
        fun k2 => !((gd.groups.map GroupData.id).contains k2) :=
      List.mem_filter.mpr ⟨hkm, by simpa using hkn⟩
    have hnd : ((st.groups.map Prod.fst).filter
        fun k2 => !((gd.groups.map GroupData.id).contains k2)).Nodup :=
      hk.filter _
    have hle := List.nodup_iff_count_le_one.mp hnd k
    have hpos := List.count_pos_iff.mpr hmem
    omega
  · intro d hd hlk e he hobj
    rw [hev] at he
    simp only [List.mem_append] at he
    rcases he with (he | he) | he
    · exact handleIncomingGroups_unchanged_no_event gd.groups st.groups d
        (fun g hg hgid => List.inj_on_of_nodup_map hi hg hd hgid)
        hlk e he hobj
    · simp only [List.mem_map] at he
      obtain ⟨k0, hk0, heq⟩ := he
      have hk0d : k0 = d.id := by rw [← heq] at hobj; exact hobj
      subst hk0d
      rw [List.mem_filter] at hk0
      have hcon : ¬(d.id ∈ gd.groups.map GroupData.id) := by
        simpa using hk0.2
      exact hcon (List.mem_map_of_mem GroupData.id hd)
    · simp only [List.mem_map] at he
      obtain ⟨g, hg, heq⟩ := he
      have hgid : g.id = d.id := by rw [← heq] at hobj; exact hobj
      rw [handleIncomingGroups_pending, List.mem_filter] at hg
      rw [hgid, hlk] at hg
      simp at hg

/-- C1 witness: snapshot holding groups A and B receiving incoming
groups A (unchanged) and C emits exactly one GROUP_REMOVED for B,
exactly one GROUP_ADDED for C, and no event for A. -/
theorem handleGroupsEvent_delta_witness :
    (handleGroupsEvent stEx gdEx).2.count ⟨EventType.groupAdded, "C"⟩ = 1 ∧
    (handleGroupsEvent stEx gdEx).2.count ⟨EventType.groupRemoved, "B"⟩ = 1 ∧
    ∀ e ∈ (handleGroupsEvent stEx gdEx).2, e.object_id ≠ "A" :=
  ⟨(handleGroupsEvent_delta stEx gdEx (by decide) (by decide) rfl).1
      gC (by decide) (by decide),
   (handleGroupsEvent_delta stEx gdEx (by decide) (by decide) rfl).2.1
      "B" (by decide) (by decide),
   (handleGroupsEvent_delta stEx gdEx (by decide) (by decide) rfl).2.2
      gA (by decide) (by decide)⟩
